import Mathlib

/-!
Shallow embedding of the `acc-smartlink` spa monitor core
(`src/spa-monitor.ts`): the 6-byte display-frame decoder
(`parseDisplayData`), the sticky status-state accumulator
(`updateStateFromDisplay`), the `median` aggregation, the finalization
step (`writeReading`) and the event-driven collection session
(`collectReading`), together with theorems checking the natural-language
specification against this embedding.

Frames are modelled at the byte level: a raw frame is the six bytes
obtained from the 12-hex-character `dsp` string (5-byte payloads are
zero-padded to 6 by the caller, exactly as in `collectReading`).
JavaScript numbers holding byte values and temperatures are modelled as
`Nat`; the possibly fractional median is modelled as `ℚ`.
-/

/-- `SAMPLE_COUNT` from spa-monitor.ts. -/
def SAMPLE_COUNT : Nat := 3

/-- `MIN_VALID_TEMP` from spa-monitor.ts. -/
def MIN_VALID_TEMP : Nat := 45

/-- `MAX_VALID_TEMP` from spa-monitor.ts. -/
def MAX_VALID_TEMP : Nat := 106

/-- `SEVEN_SEGMENT_DIGITS`: 7-segment display digit encoding, keyed by the
byte with bit 0x80 masked off. -/
def SEVEN_SEGMENT_DIGITS : List (Nat × Nat) :=
  [(0x00, 0), (0x3f, 0), (0x06, 1), (0x5b, 2), (0x4f, 3),
   (0x66, 4), (0x6d, 5), (0x7d, 6), (0x07, 7), (0x7f, 8), (0x6f, 9)]

/-- `SEVEN_SEGMENT_LETTERS`: 7-segment letter patterns for mode detection. -/
def SEVEN_SEGMENT_LETTERS : List (Nat × Char) :=
  [(0x79, 'E'), (0x39, 'C'), (0x5c, 'o'), (0x54, 'n'), (0x71, 'F'),
   (0x76, 'H'), (0x38, 'L'), (0x3e, 'U'), (0x73, 'P')]

/-- A raw display frame: the six bytes of the `dsp` payload. -/
structure RawFrame where
  b0 : Nat
  b1 : Nat
  b2 : Nat
  b3 : Nat
  b4 : Nat
  b5 : Nat
deriving DecidableEq, Repr

/-- The `DisplayType` union from spa-monitor.ts. -/
inductive DisplayType where
  | temp
  | time
  | eco
  | blank
  | heating
  | unknown
deriving DecidableEq, Repr

/-- The `DisplayResult` interface from spa-monitor.ts.  The `raw` field of
the source (a hex formatting of the input bytes) is kept as the input
frame itself; the `value` display string is kept only where a claim could
touch it (letter text), as `value`. -/
structure DisplayResult where
  type : DisplayType
  value : String
  raw : RawFrame
  temp : Option Nat := none
  statusByte1 : Option Nat := none
  statusByte2 : Option Nat := none
deriving DecidableEq, Repr

/-- `decodeDigit`: mask off bit 0x80, look the low 7 bits up in the digit
table. -/
def decodeDigit (byte : Nat) : Option Nat :=
  SEVEN_SEGMENT_DIGITS.lookup (byte &&& 0x7f)

/-- `decodeLetter`: mask off bit 0x80, look the low 7 bits up in the
letter table. -/
def decodeLetter (byte : Nat) : Option Char :=
  SEVEN_SEGMENT_LETTERS.lookup (byte &&& 0x7f)

/-- The uppercased mode words checked by the letter-text branch of
`parseDisplayData` (`["HI","LO","ON","OFF","ECO"]`), as character
lists. -/
def MODE_WORDS : List (List Char) :=
  [['H', 'I'], ['L', 'O'], ['O', 'N'], ['O', 'F', 'F'], ['E', 'C', 'O']]

/-- The time/unknown tail of `parseDisplayData` (lines 164-179 of
spa-monitor.ts), reached when none of the blank/eco/letter-text/
temperature checks returned. -/
def timeOrUnknown (f : RawFrame) : DisplayResult :=
  let d0 := decodeDigit f.b0
  let d1 := decodeDigit f.b1
  let d2 := decodeDigit f.b2
  let d3 := decodeDigit f.b3
  let statusByte1 := f.b4
  let statusByte2 := f.b5
  match d0, d1, d2 with
  | some v0, some v1, some v2 =>
    let minutes := v1 * 10 + v0
    let hours := (match d3 with | some v3 => if v3 > 0 then v3 * 10 else 0 | none => 0) + v2
    let amPm := if statusByte1 &&& 0x80 ≠ 0 then " AM" else ""
    let timeStr := s!"{hours}:{minutes}{amPm}"
    { type := .time, value := timeStr, raw := f,
      statusByte1 := some statusByte1, statusByte2 := some statusByte2 }
  | _, _, _ =>
    { type := .unknown, value := "", raw := f,
      statusByte1 := some statusByte1, statusByte2 := some statusByte2 }

/-- The `letters` local of `parseDisplayData`'s letter-text check:
bytes 0..3 decoded through the letter table, keeping the decodable
ones. -/
def modeText (f : RawFrame) : List Char :=
  [f.b0, f.b1, f.b2, f.b3].filterMap decodeLetter

/-- The temperature `DisplayResult` record returned by both accepting
branches of the temperature region: status bytes are bytes 4 and 5. -/
def tempResult (f : RawFrame) (temp : Nat) : DisplayResult :=
  { type := .temp, value := s!"{temp}°F", raw := f, temp := some temp,
    statusByte1 := some f.b4, statusByte2 := some f.b5 }

/-- The first `if` of the temperature region (lines 149-154 of
spa-monitor.ts): `hundredsDigit === 1 && tensDigit !== null &&
onesDigit !== null`, value `100 + tens*10 + ones`, accepted only in
[100, MAX_VALID_TEMP]. -/
def threeDigitTemp (f : RawFrame) : Option Nat :=
  match decodeDigit f.b3, decodeDigit f.b2, decodeDigit f.b1 with
  | some h, some t, some o =>
    if h = 1 then
      if 100 ≤ 100 + t * 10 + o ∧ 100 + t * 10 + o ≤ MAX_VALID_TEMP then
        some (100 + t * 10 + o)
      else none
    else none
  | _, _, _ => none

/-- The second `if` of the temperature region (lines 156-161 of
spa-monitor.ts): `tensDigit !== null && onesDigit !== null`, value
`tens*10 + ones`, accepted only in [MIN_VALID_TEMP, 99]. -/
def twoDigitTemp (f : RawFrame) : Option Nat :=
  match decodeDigit f.b2, decodeDigit f.b1 with
  | some t, some o =>
    if MIN_VALID_TEMP ≤ t * 10 + o ∧ t * 10 + o ≤ 99 then some (t * 10 + o)
    else none
  | _, _ => none

/-- The Fahrenheit temperature region of `parseDisplayData` (lines
141-162 of spa-monitor.ts), reached when byte 0's low 7 bits equal 0x71:
first the `hundredsDigit === 1` three-digit check, then — the source
uses a second independent `if`, not an `else` — the two-digit check;
when neither accepts, control falls through to the time/unknown tail. -/
def tempBranch (f : RawFrame) : DisplayResult :=
  match threeDigitTemp f with
  | some temp => tempResult f temp
  | none =>
    match twoDigitTemp f with
    | some temp => tempResult f temp
    | none => timeOrUnknown f

/-- `parseDisplayData` from spa-monitor.ts, over the six bytes of the
frame.  The early-return chain of the source becomes a nested
if/match chain; each branch returns exactly the record the source
returns.  String comparisons of the source (`PATTERN_BLANK`,
`"000000000010"`, `PATTERN_ECON`) become the equivalent byte
comparisons. -/
def parseDisplayData (f : RawFrame) : DisplayResult :=
  -- prefix === PATTERN_BLANK (first five bytes zero) or the full frame 000000000010
  if (f.b0 = 0 ∧ f.b1 = 0 ∧ f.b2 = 0 ∧ f.b3 = 0 ∧ f.b4 = 0) ∨
     f = ⟨0, 0, 0, 0, 0, 0x10⟩ then
    { type := .blank, value := "", raw := f }
  -- first four bytes === PATTERN_ECON = "545c3979"
  else if f.b0 = 0x54 ∧ f.b1 = 0x5c ∧ f.b2 = 0x39 ∧ f.b3 = 0x79 then
    { type := .eco, value := "ECOn", raw := f,
      statusByte1 := some f.b4, statusByte2 := some f.b5 }
  -- letter-text check over bytes 0..3
  else if (modeText f).length ≥ 2 ∧
          (modeText f).reverse.map Char.toUpper ∈ MODE_WORDS then
    { type := .unknown, value := String.mk (modeText f).reverse, raw := f }
  -- Fahrenheit-indicator temperature check
  else if f.b0 &&& 0x7f = 0x71 then
    tempBranch f
  else timeOrUnknown f

/-- Status flag bits in byte 4 (status byte A) of the display message. -/
def STATUS_HEATING : Nat := 0x01

def STATUS_AUX_HI : Nat := 0x02

def STATUS_JETS_LO : Nat := 0x04

def STATUS_JETS_HI : Nat := 0x08

def STATUS_FILTERING : Nat := 0x10

def STATUS_EDIT : Nat := 0x20

def STATUS_OVERHEAT : Nat := 0x40

def STATUS_AM : Nat := 0x80

/-- Status flag bits in byte 5 (status byte B) of the display message. -/
def STATUS2_LIGHT : Nat := 0x10

def STATUS2_JETS2_HI : Nat := 0x20

def STATUS2_JETS2_LO : Nat := 0x40

def STATUS2_AUX_LO : Nat := 0x80

/-- The `CollectionState` interface from spa-monitor.ts. -/
structure CollectionState where
  currentTemp : Option Nat
  heating : Bool
  auxHi : Bool
  jetsLo : Bool
  jetsHi : Bool
  filtering : Bool
  lightOn : Bool
  edit : Bool
  overheat : Bool
  jets2Hi : Bool
  jets2Lo : Bool
  auxLo : Bool
  lastStatusByte1 : Option Nat
deriving DecidableEq, Repr

/-- The fresh `CollectionState` built at the top of `collectReading`. -/
def initialCollectionState : CollectionState :=
  { currentTemp := none, heating := false, auxHi := false, jetsLo := false,
    jetsHi := false, filtering := false, lightOn := false, edit := false,
    overheat := false, jets2Hi := false, jets2Lo := false, auxLo := false,
    lastStatusByte1 := none }

/-- `updateStateFromDisplay` from spa-monitor.ts, as a pure state
transformer (the source mutates `state` in place). -/
def updateStateFromDisplay (display : DisplayResult) (state : CollectionState) :
    CollectionState :=
  let state :=
    match display.statusByte1 with
    | some sb1 =>
      { state with
        heating := sb1 &&& STATUS_HEATING ≠ 0,
        auxHi := sb1 &&& STATUS_AUX_HI ≠ 0,
        jetsLo := sb1 &&& STATUS_JETS_LO ≠ 0,
        jetsHi := sb1 &&& STATUS_JETS_HI ≠ 0,
        filtering := sb1 &&& STATUS_FILTERING ≠ 0,
        edit := sb1 &&& STATUS_EDIT ≠ 0,
        overheat := sb1 &&& STATUS_OVERHEAT ≠ 0,
        lastStatusByte1 := some sb1 }
    | none => state
  let state :=
    match display.statusByte2 with
    | some sb2 =>
      { state with
        lightOn := sb2 &&& STATUS2_LIGHT ≠ 0,
        jets2Hi := sb2 &&& STATUS2_JETS2_HI ≠ 0,
        jets2Lo := sb2 &&& STATUS2_JETS2_LO ≠ 0,
        auxLo := sb2 &&& STATUS2_AUX_LO ≠ 0 }
    | none => state
  match display.type, display.temp with
  | .temp, some t => { state with currentTemp := some t }
  | _, _ => state

/-- The body of `median` after the ascending numeric sort
(`[...values].sort((a, b) => a - b)`): with `mid = ⌊length/2⌋`, the
middle element for odd length, else the mean of the two central
elements. -/
def medianOfSorted (sorted : List Nat) : ℚ :=
  if sorted.length % 2 ≠ 0
  then (sorted.getD (sorted.length / 2) 0 : ℚ)
  else ((sorted.getD (sorted.length / 2 - 1) 0 : ℚ) +
        (sorted.getD (sorted.length / 2) 0 : ℚ)) / 2

/-- `median` from spa-monitor.ts: `null` on the empty list, otherwise the
middle of the ascending sort (odd length) or the mean of the two central
elements (even length).  The possibly fractional result is a rational. -/
def median (values : List Nat) : Option ℚ :=
  if values.length = 0 then none
  else some (medianOfSorted (List.insertionSort (· ≤ ·) values))

/-- The payload handed to `insertReading`: the `reading` object built by
`writeReading` (the `SpaStateForDb` shape of database.ts) plus the
separately computed `am` flag. -/
structure LoggedReading where
  currentTemp : Option ℚ
  heating : Bool
  jetsLo : Bool
  jetsHi : Bool
  auxHi : Bool
  filtering : Bool
  lightOn : Bool
  edit : Bool
  overheat : Bool
  jets2Hi : Bool
  jets2Lo : Bool
  auxLo : Bool
  am : Bool
deriving DecidableEq, Repr

/-- `writeReading` from spa-monitor.ts, as the pure value it passes to
`insertReading(reading, am)`. -/
def writeReading (samples : List Nat) (state : CollectionState) : LoggedReading :=
  { currentTemp := median samples,
    heating := state.heating,
    jetsLo := state.jetsLo,
    jetsHi := state.jetsHi,
    auxHi := state.auxHi,
    filtering := state.filtering,
    lightOn := state.lightOn,
    edit := state.edit,
    overheat := state.overheat,
    jets2Hi := state.jets2Hi,
    jets2Lo := state.jets2Lo,
    auxLo := state.auxLo,
    am := match state.lastStatusByte1 with
      | some sb1 => sb1 &&& STATUS_AM ≠ 0
      | none => false }

/-- An event delivered to the handlers registered by `collectReading`:
a websocket `message` (carrying a decoded `dsp` frame, or `none` when the
payload was non-JSON or lacked a `dsp` field and is ignored), the
websocket `close` and `error` events, and the firing of the 30-second
collection timeout. -/
inductive SpaEvent where
  | message (dsp : Option RawFrame)
  | closed
  | errored
  | timeoutFire
deriving DecidableEq, Repr

/-- The mutable state captured by the closures of one `collectReading`
call: the `samples` array, the `CollectionState`, whether the collection
timeout is still pending (`setTimeout` armed, no `clearTimeout` yet and
not yet fired), whether the promise has settled (`resolve` or `reject`),
and the list of readings passed to `insertReading` so far. -/
structure SessionState where
  samples : List Nat
  state : CollectionState
  timerActive : Bool
  settled : Bool
  written : List LoggedReading
deriving DecidableEq, Repr

/-- The state of a session right after `collectReading` connects: no
samples, fresh `CollectionState`, timeout armed, promise pending, nothing
written. -/
def initialSession : SessionState :=
  { samples := [], state := initialCollectionState, timerActive := true,
    settled := false, written := [] }

/-- One event dispatch of `collectReading`'s handlers (spa-monitor.ts
lines 246-302).  A `message` with a frame is parsed and merged; a
temperature sample is appended and, once `samples.length >= SAMPLE_COUNT`,
the timer is cleared and a reading is written.  `close` and `error` clear
the timer and settle the promise without writing.  The timeout handler
(when the timer is still pending) writes a reading only when at least one
sample exists, and settles. -/
def handleEvent (s : SessionState) : SpaEvent → SessionState
  | .message none => s
  | .message (some f) =>
    let display := parseDisplayData f
    let st := updateStateFromDisplay display s.state
    match display.type, display.temp with
    | .temp, some t =>
      let samples := s.samples ++ [t]
      if samples.length ≥ SAMPLE_COUNT then
        { s with samples := samples, state := st, timerActive := false,
                 written := s.written ++ [writeReading samples st],
                 settled := true }
      else
        { s with samples := samples, state := st }
    | _, _ => { s with state := st }
  | .closed => { s with timerActive := false, settled := true }
  | .errored => { s with timerActive := false, settled := true }
  | .timeoutFire =>
    if s.timerActive then
      { s with timerActive := false,
               written := if s.samples.length > 0
                 then s.written ++ [writeReading s.samples s.state]
                 else s.written,
               settled := true }
    else s

/-- A whole session: the events delivered to `collectReading`'s handlers,
in arrival order, folded over the initial session state. -/
def runSession (events : List SpaEvent) : SessionState :=
  events.foldl handleEvent initialSession


/-! ### Decoder lemmas -/

/-- The digit and letter tables are keyed by the low seven bits, which
are below 128. -/
theorem masked_lt_128 (b : Nat) : b &&& 0x7f < 128 :=
  Nat.lt_succ_of_le Nat.and_le_right

/-- The digit table and the letter table have disjoint keys: a byte that
decodes to a digit decodes to no letter. -/
theorem decodeDigit_letter_none (b : Nat) (h : (decodeDigit b).isSome) :
    decodeLetter b = none := by
  have key : ∀ m : Nat, m < 128 → (SEVEN_SEGMENT_DIGITS.lookup m).isSome →
      SEVEN_SEGMENT_LETTERS.lookup m = none := by decide
  exact key _ (masked_lt_128 b) h

/-- `decodeLetter` returns nothing or one of the nine table letters. -/
theorem decodeLetter_cases (b : Nat) :
    decodeLetter b ∈
      (none : Option Char) ::
        (['E', 'C', 'o', 'n', 'F', 'H', 'L', 'U', 'P'].map some) := by
  have key : ∀ m : Nat, m < 128 → SEVEN_SEGMENT_LETTERS.lookup m ∈
      (none : Option Char) ::
        (['E', 'C', 'o', 'n', 'F', 'H', 'L', 'U', 'P'].map some) := by decide
  exact key _ (masked_lt_128 b)

/-- A byte whose low seven bits are the Fahrenheit code decodes to the
letter `F`. -/
theorem decodeLetter_fahrenheit (b : Nat) (h : b &&& 0x7f = 0x71) :
    decodeLetter b = some 'F' := by
  unfold decodeLetter
  rw [h]
  rfl

/-- When byte 0 carries the Fahrenheit indicator and bytes 1 and 2
decode as digits, the letter-text check cannot fire: the candidate text
is `"F"` or a two-letter word ending in `F`, and no mode word is of that
shape. -/
theorem mode_text_excluded (f : RawFrame) (h0 : f.b0 &&& 0x7f = 0x71)
    (h1 : (decodeDigit f.b1).isSome) (h2 : (decodeDigit f.b2).isSome) :
    ¬((modeText f).length ≥ 2 ∧
      (modeText f).reverse.map Char.toUpper ∈ MODE_WORDS) := by
  have hF := decodeLetter_fahrenheit f.b0 h0
  have hn1 := decodeDigit_letter_none f.b1 h1
  have hn2 := decodeDigit_letter_none f.b2 h2
  have h3 := decodeLetter_cases f.b3
  simp only [List.map_cons, List.map_nil, List.mem_cons, List.mem_singleton,
    List.not_mem_nil, or_false] at h3
  unfold modeText
  rcases h3 with h3 | h3 | h3 | h3 | h3 | h3 | h3 | h3 | h3 | h3 <;>
  · simp only [List.filterMap_cons, List.filterMap_nil, hF, hn1, hn2, h3]
    decide

/-- Under the same hypotheses, `parseDisplayData` reaches the
temperature region: the blank, eco and letter-text checks all fail and
the Fahrenheit indicator matches. -/
theorem parseDisplayData_eq_tempBranch (f : RawFrame)
    (h0 : f.b0 &&& 0x7f = 0x71)
    (h1 : (decodeDigit f.b1).isSome) (h2 : (decodeDigit f.b2).isSome) :
    parseDisplayData f = tempBranch f := by
  have hb0 : f.b0 ≠ 0 := by
    intro h
    rw [h] at h0
    exact absurd h0 (by decide)
  have hblank : ¬((f.b0 = 0 ∧ f.b1 = 0 ∧ f.b2 = 0 ∧ f.b3 = 0 ∧ f.b4 = 0) ∨
      f = ⟨0, 0, 0, 0, 0, 0x10⟩) := by
    rintro (⟨h, -⟩ | h)
    · exact hb0 h
    · exact hb0 (by rw [h])
  have heco : ¬(f.b0 = 0x54 ∧ f.b1 = 0x5c ∧ f.b2 = 0x39 ∧ f.b3 = 0x79) := by
    rintro ⟨h, -⟩
    rw [h] at h0
    exact absurd h0 (by decide)
  rw [parseDisplayData, if_neg hblank, if_neg heco,
    if_neg (mode_text_excluded f h0 h1 h2), if_pos h0]

/-- C7: for every 6-byte frame whose byte 0 low 7 bits equal the
Fahrenheit code 0x71 and whose bytes 2 and 1 decode through the digit
table to tens and ones with 10*tens+ones in [45,99], classification
returns a Temperature result with exactly that value (no earlier
blank/eco/letter-text check intercepts such a frame); likewise, when
byte 3 additionally decodes to exactly 1 and 100+10*tens+ones lies in
[100,106], classification returns a Temperature result with that
three-digit value. -/
theorem classify_fahrenheit_temperature (f : RawFrame) (t o : Nat)
    (h0 : f.b0 &&& 0x7f = 0x71)
    (ht : decodeDigit f.b2 = some t) (ho : decodeDigit f.b1 = some o) :
    (45 ≤ t * 10 + o → t * 10 + o ≤ 99 →
      parseDisplayData f = tempResult f (t * 10 + o)) ∧
    (decodeDigit f.b3 = some 1 → 100 ≤ 100 + t * 10 + o →
      100 + t * 10 + o ≤ 106 →
      parseDisplayData f = tempResult f (100 + t * 10 + o)) := by
  have heq := parseDisplayData_eq_tempBranch f h0 (by rw [ho]; rfl) (by rw [ht]; rfl)
  constructor
  · intro hlo hhi
    have h3 : threeDigitTemp f = none := by
      unfold threeDigitTemp
      rcases hh : decodeDigit f.b3 with - | h
      · rfl
      · by_cases hh1 : h = 1
        · subst hh1
          have hrange : ¬(100 ≤ 100 + t * 10 + o ∧
              100 + t * 10 + o ≤ MAX_VALID_TEMP) := by
            unfold MAX_VALID_TEMP
            omega
          rw [ht, ho]
          simp only [if_pos rfl, if_neg hrange, ite_self]
        · rw [ht, ho]
          simp only [if_neg hh1]
    have h2 : twoDigitTemp f = some (t * 10 + o) := by
      unfold twoDigitTemp
      rw [ht, ho]
      simp only [if_pos (And.intro hlo hhi : MIN_VALID_TEMP ≤ t * 10 + o ∧ t * 10 + o ≤ 99)]
    rw [heq]
    unfold tempBranch
    rw [h3, h2]
  · intro h1 hlo hhi
    have h3 : threeDigitTemp f = some (100 + t * 10 + o) := by
      unfold threeDigitTemp
      rw [h1, ht, ho]
      simp [MAX_VALID_TEMP, hlo, hhi]
    rw [heq]
    unfold tempBranch
    rw [h3]

/-- Witness for C7 at the concrete 97°F frame `71 07 6f 00 00 00`. -/
theorem classify_fahrenheit_temperature_witness :
    parseDisplayData ⟨0x71, 0x07, 0x6f, 0, 0, 0⟩ =
      tempResult ⟨0x71, 0x07, 0x6f, 0, 0, 0⟩ 97 :=
  (classify_fahrenheit_temperature ⟨0x71, 0x07, 0x6f, 0, 0, 0⟩ 9 7
    (by decide) (by decide) (by decide)).1 (by decide) (by decide)

/-- The time/unknown tail classifies every frame as `time` or
`unknown`. -/
theorem timeOrUnknown_type (f : RawFrame) :
    (timeOrUnknown f).type = DisplayType.time ∨
      (timeOrUnknown f).type = DisplayType.unknown := by
  unfold timeOrUnknown
  rcases h0 : decodeDigit f.b0 with - | v0 <;>
    rcases h1 : decodeDigit f.b1 with - | v1 <;>
      rcases h2 : decodeDigit f.b2 with - | v2 <;>
        simp

/-- C8 counterexample: in the frame `71 3f 6d 06 00 00` the hundreds
byte decodes to exactly 1, tens to 5, ones to 0; the three-digit value
150 is outside [100,106], yet classification returns a Temperature of
50 — the two-digit rule does fire, contradicting the claim that it is
the else-branch of the hundreds test. -/
theorem two_digit_fallback_cex :
    decodeDigit 0x06 = some 1 ∧ decodeDigit 0x6d = some 5 ∧
    decodeDigit 0x3f = some 0 ∧
    ¬(100 ≤ (100 + 5 * 10 + 0 : Nat) ∧ (100 + 5 * 10 + 0 : Nat) ≤ 106) ∧
    (parseDisplayData ⟨0x71, 0x3f, 0x6d, 0x06, 0, 0⟩).type = .temp ∧
    (parseDisplayData ⟨0x71, 0x3f, 0x6d, 0x06, 0, 0⟩).temp = some 50 := by
  decide

/-- C8 amended: the two-digit rule is a second, independent check, not
the else-branch of the hundreds test.  When the hundreds byte decodes to
exactly 1, tens/ones decode, and the three-digit value lies outside
[100,106], classification still returns a Temperature with the two-digit
value 10*tens+ones whenever that lies in [45,99]; only when the
two-digit value is also out of range does the frame fall through to the
later time/unknown checks. -/
theorem two_digit_independent_check (f : RawFrame) (t o : Nat)
    (h0 : f.b0 &&& 0x7f = 0x71) (h1 : decodeDigit f.b3 = some 1)
    (ht : decodeDigit f.b2 = some t) (ho : decodeDigit f.b1 = some o)
    (hout : ¬(100 ≤ 100 + t * 10 + o ∧ 100 + t * 10 + o ≤ 106)) :
    (45 ≤ t * 10 + o ∧ t * 10 + o ≤ 99 →
      parseDisplayData f = tempResult f (t * 10 + o)) ∧
    (¬(45 ≤ t * 10 + o ∧ t * 10 + o ≤ 99) →
      (parseDisplayData f).type = DisplayType.time ∨
        (parseDisplayData f).type = DisplayType.unknown) := by
  have heq := parseDisplayData_eq_tempBranch f h0 (by rw [ho]; rfl) (by rw [ht]; rfl)
  have h3 : threeDigitTemp f = none := by
    unfold threeDigitTemp
    rw [h1, ht, ho]
    have hout' : ¬(100 ≤ 100 + t * 10 + o ∧
        100 + t * 10 + o ≤ MAX_VALID_TEMP) := by
      unfold MAX_VALID_TEMP
      exact hout
    simp only [if_pos rfl, if_neg hout', ite_self]
  constructor
  · intro hin
    have h2 : twoDigitTemp f = some (t * 10 + o) := by
      unfold twoDigitTemp
      rw [ht, ho]
      exact if_pos hin
    rw [heq]
    unfold tempBranch
    rw [h3, h2]
  · intro hnin
    have h2 : twoDigitTemp f = none := by
      unfold twoDigitTemp
      rw [ht, ho]
      exact if_neg hnin
    rw [heq]
    unfold tempBranch
    rw [h3, h2]
    exact timeOrUnknown_type f

/-- Witness for the amended C8 at the concrete frame `71 3f 6d 06 00 00`
(hundreds 1, tens 5, ones 0: three-digit value 150 rejected, two-digit
value 50 accepted). -/
theorem two_digit_independent_check_witness :
    parseDisplayData ⟨0x71, 0x3f, 0x6d, 0x06, 0, 0⟩ =
      tempResult ⟨0x71, 0x3f, 0x6d, 0x06, 0, 0⟩ 50 :=
  (two_digit_independent_check ⟨0x71, 0x3f, 0x6d, 0x06, 0, 0⟩ 5 0
    (by decide) (by decide) (by decide) (by decide) (by decide)).1 (by decide)

/-! ### Median (C9) -/

/-- C9: `median` returns nothing for the empty list; for every non-empty
list it returns the middle element of an ascending sort of the list when
the length is odd, and the arithmetic mean of the two central elements
when the length is even; in particular `median [97,99,98] = 98` and
`median [97,99] = 98`. -/
theorem median_spec :
    median [] = none ∧
    (∀ l : List Nat, l ≠ [] →
      ∃ s : List Nat, List.Sorted (· ≤ ·) s ∧ s.Perm l ∧
        median l = some (if l.length % 2 ≠ 0
          then (s.getD (l.length / 2) 0 : ℚ)
          else ((s.getD (l.length / 2 - 1) 0 : ℚ) +
                (s.getD (l.length / 2) 0 : ℚ)) / 2)) ∧
    median [97, 99, 98] = some 98 ∧
    median [97, 99] = some 98 := by
  refine ⟨rfl, ?_, ?_, ?_⟩
  · intro l hl
    refine ⟨List.insertionSort (· ≤ ·) l, List.sorted_insertionSort _ l,
      List.perm_insertionSort _ l, ?_⟩
    have hlen : (List.insertionSort (· ≤ ·) l).length = l.length :=
      (List.perm_insertionSort _ l).length_eq
    rw [median, if_neg (by simpa using hl), medianOfSorted, hlen]
  · rw [median, if_neg (by decide)]
    norm_num [medianOfSorted, List.insertionSort, List.orderedInsert]
  · rw [median, if_neg (by decide)]
    norm_num [medianOfSorted, List.insertionSort, List.orderedInsert]

/-- Witness for C9's non-empty clause at the singleton list `[5]`. -/
theorem median_spec_witness :
    ∃ s : List Nat, List.Sorted (· ≤ ·) s ∧ s.Perm [5] ∧
      median [5] = some (if ([5] : List Nat).length % 2 ≠ 0
        then (s.getD (([5] : List Nat).length / 2) 0 : ℚ)
        else ((s.getD (([5] : List Nat).length / 2 - 1) 0 : ℚ) +
              (s.getD (([5] : List Nat).length / 2) 0 : ℚ)) / 2) :=
  median_spec.2.1 [5] (by decide)

/-! ### Status merging (C4, C6, C10) -/

/-- C10: when the state's `lastStatusByte1` is still `null` at finalize
time — as it is in the fresh state built at session start — `writeReading`
resolves the `am` flag to `false`; the null case is a default, not an
error or an absent field. -/
theorem am_defaults_false (samples : List Nat) (state : CollectionState)
    (h : state.lastStatusByte1 = none) :
    (writeReading samples state).am = false ∧
    initialCollectionState.lastStatusByte1 = none := by
  constructor
  · simp [writeReading, h]
  · rfl

/-- Witness for C10 at the fresh session state with no samples. -/
theorem am_defaults_false_witness :
    (writeReading [] initialCollectionState).am = false :=
  (am_defaults_false [] initialCollectionState rfl).1

/-- C4 counterexample: status byte A values 0x00 and 0x40 agree on all
of bits 0,1,2,3,4,5,7, yet merging the frames `71 07 6f 00 40 00` and
`71 07 6f 00 00 00` (both carrying status byte A) into the same prior
state yields different flag sets — bit 6 (0x40, `STATUS_OVERHEAT`) is
mapped to the `overheat` flag, so the flags are not determined by bits
0,1,2,3,4,5,7 alone and bit 6 is not unmapped. -/
theorem statusA_bit6_mapped_cex :
    (∀ i ∈ ([0, 1, 2, 3, 4, 5, 7] : List Nat),
      (0x40 : Nat).testBit i = (0x00 : Nat).testBit i) ∧
    (parseDisplayData ⟨0x71, 0x07, 0x6f, 0, 0x40, 0⟩).statusByte1 = some 0x40 ∧
    (parseDisplayData ⟨0x71, 0x07, 0x6f, 0, 0, 0⟩).statusByte1 = some 0 ∧
    (updateStateFromDisplay (parseDisplayData ⟨0x71, 0x07, 0x6f, 0, 0x40, 0⟩)
      initialCollectionState).overheat = true ∧
    (updateStateFromDisplay (parseDisplayData ⟨0x71, 0x07, 0x6f, 0, 0, 0⟩)
      initialCollectionState).overheat = false := by
  decide

/-- C4 amended: for every frame carrying status bytes A and B and every
prior state, the merged boolean flags are exactly the bit tests of bits
0-6 of status byte A — bit 6 (0x40) is mapped to `overheat`, named
`STATUS_OVERHEAT` in the source — and bits 4-7 of status byte B; the
whole of status byte A is recorded in `lastStatusByte1`.  Bit 7 of A
(`STATUS_AM`) is mapped to no merged boolean flag: it is resolved from
`lastStatusByte1` only at finalize time. -/
theorem merge_status_bits (d : DisplayResult) (s : CollectionState) (a b : Nat)
    (ha : d.statusByte1 = some a) (hb : d.statusByte2 = some b) :
    (updateStateFromDisplay d s).heating = decide (a &&& STATUS_HEATING ≠ 0) ∧
    (updateStateFromDisplay d s).auxHi = decide (a &&& STATUS_AUX_HI ≠ 0) ∧
    (updateStateFromDisplay d s).jetsLo = decide (a &&& STATUS_JETS_LO ≠ 0) ∧
    (updateStateFromDisplay d s).jetsHi = decide (a &&& STATUS_JETS_HI ≠ 0) ∧
    (updateStateFromDisplay d s).filtering = decide (a &&& STATUS_FILTERING ≠ 0) ∧
    (updateStateFromDisplay d s).edit = decide (a &&& STATUS_EDIT ≠ 0) ∧
    (updateStateFromDisplay d s).overheat = decide (a &&& STATUS_OVERHEAT ≠ 0) ∧
    (updateStateFromDisplay d s).lastStatusByte1 = some a ∧
    (updateStateFromDisplay d s).lightOn = decide (b &&& STATUS2_LIGHT ≠ 0) ∧
    (updateStateFromDisplay d s).jets2Hi = decide (b &&& STATUS2_JETS2_HI ≠ 0) ∧
    (updateStateFromDisplay d s).jets2Lo = decide (b &&& STATUS2_JETS2_LO ≠ 0) ∧
    (updateStateFromDisplay d s).auxLo = decide (b &&& STATUS2_AUX_LO ≠ 0) := by
  obtain ⟨ty, v, raw, tmp, sb1, sb2⟩ := d
  have ha' : sb1 = some a := ha
  have hb' : sb2 = some b := hb
  subst ha'
  subst hb'
  cases ty <;> cases tmp <;> simp [updateStateFromDisplay]

/-- Witness for the amended C4 at the concrete frame `71 07 6f 00 40 10`
merged into the fresh state: `overheat` equals the bit-6 test of 0x40. -/
theorem merge_status_bits_witness :
    (updateStateFromDisplay (parseDisplayData ⟨0x71, 0x07, 0x6f, 0, 0x40, 0x10⟩)
      initialCollectionState).overheat = decide ((0x40 : Nat) &&& STATUS_OVERHEAT ≠ 0) :=
  (merge_status_bits (parseDisplayData ⟨0x71, 0x07, 0x6f, 0, 0x40, 0x10⟩)
    initialCollectionState 0x40 0x10 (by decide) (by decide)).2.2.2.2.2.2.1

/-- C6: sticky-state semantics — merging a frame that carries no status
bytes (a Blank frame, or the letter-text Unknown sub-case, neither of
which sets `statusByte1`/`statusByte2`) leaves every boolean flag and
`lastStatusByte1` unchanged. -/
theorem sticky_no_status (d : DisplayResult) (s : CollectionState)
    (h1 : d.statusByte1 = none) (h2 : d.statusByte2 = none) :
    (updateStateFromDisplay d s).heating = s.heating ∧
    (updateStateFromDisplay d s).auxHi = s.auxHi ∧
    (updateStateFromDisplay d s).jetsLo = s.jetsLo ∧
    (updateStateFromDisplay d s).jetsHi = s.jetsHi ∧
    (updateStateFromDisplay d s).filtering = s.filtering ∧
    (updateStateFromDisplay d s).lightOn = s.lightOn ∧
    (updateStateFromDisplay d s).edit = s.edit ∧
    (updateStateFromDisplay d s).overheat = s.overheat ∧
    (updateStateFromDisplay d s).jets2Hi = s.jets2Hi ∧
    (updateStateFromDisplay d s).jets2Lo = s.jets2Lo ∧
    (updateStateFromDisplay d s).auxLo = s.auxLo ∧
    (updateStateFromDisplay d s).lastStatusByte1 = s.lastStatusByte1 := by
  obtain ⟨ty, v, raw, tmp, sb1, sb2⟩ := d
  have h1' : sb1 = none := h1
  have h2' : sb2 = none := h2
  subst h1'
  subst h2'
  cases ty <;> cases tmp <;> simp [updateStateFromDisplay]

/-- Witness for C6: the sticky scenario of the spec — frame
`71 07 6f 00 04 00` (status byte A = 0x04) sets `jetsLo`; a following
Blank frame `00 00 00 00 00 00` carries no status bytes and leaves
`jetsLo` true. -/
theorem sticky_no_status_witness :
    (updateStateFromDisplay (parseDisplayData ⟨0x71, 0x07, 0x6f, 0, 0x04, 0⟩)
      initialCollectionState).jetsLo = true ∧
    (parseDisplayData ⟨0, 0, 0, 0, 0, 0⟩).statusByte1 = none ∧
    (updateStateFromDisplay (parseDisplayData ⟨0, 0, 0, 0, 0, 0⟩)
      (updateStateFromDisplay (parseDisplayData ⟨0x71, 0x07, 0x6f, 0, 0x04, 0⟩)
        initialCollectionState)).jetsLo = true := by
  refine ⟨by decide, by decide, ?_⟩
  have h := sticky_no_status (parseDisplayData ⟨0, 0, 0, 0, 0, 0⟩)
    (updateStateFromDisplay (parseDisplayData ⟨0x71, 0x07, 0x6f, 0, 0x04, 0⟩)
      initialCollectionState) (by decide) (by decide)
  exact h.2.2.1.trans (by decide)

/-! ### Collection session (C1, C2, C3, C5) -/

/-- C1 counterexample: when the 30-second timeout fires before any
sample was collected, and likewise when the transport errors first, the
session settles with NO reading written at all — not with one reading
whose temperature is null. -/
theorem empty_session_no_reading_cex :
    (runSession [.timeoutFire]).written = [] ∧
    (runSession [.timeoutFire]).settled = true ∧
    (runSession [.errored]).written = [] ∧
    (runSession [.errored]).settled = true := by
  decide

/-- C1 amended: when the timeout fires (or the transport errors) before
any sample has been collected, the session still settles — the promise
resolves or rejects, so the periodic caller is not left hanging — but no
Reading is produced: the timeout handler writes only when at least one
sample exists, and the error handler never writes. -/
theorem empty_session_settles_without_reading (s : SessionState)
    (h : s.samples = []) :
    (handleEvent s .timeoutFire).written = s.written ∧
    (handleEvent s .errored).written = s.written ∧
    (s.timerActive = true → (handleEvent s .timeoutFire).settled = true) ∧
    (handleEvent s .errored).settled = true := by
  by_cases ht : s.timerActive <;> simp [handleEvent, ht, h]

/-- Witness for the amended C1 at the fresh session state. -/
theorem empty_session_settles_without_reading_witness :
    (handleEvent initialSession .timeoutFire).written = initialSession.written ∧
    (handleEvent initialSession .errored).written = initialSession.written ∧
    (initialSession.timerActive = true →
      (handleEvent initialSession .timeoutFire).settled = true) ∧
    (handleEvent initialSession .errored).settled = true :=
  empty_session_settles_without_reading initialSession rfl

/-- C2 counterexample: a session that collects one 97°F sample and then
receives a transport close event writes NO reading — not one reading
whose temperature equals that sample's value. -/
theorem close_discards_samples_cex :
    (runSession [.message (some ⟨0x71, 0x07, 0x6f, 0, 0, 0⟩), .closed]).samples
        = [97] ∧
    (runSession [.message (some ⟨0x71, 0x07, 0x6f, 0, 0, 0⟩), .closed]).written
        = [] ∧
    (runSession [.message (some ⟨0x71, 0x07, 0x6f, 0, 0, 0⟩), .closed]).settled
        = true := by
  decide

/-- C2 amended: a transport close or error during Collecting clears the
timer and settles the session WITHOUT writing any Reading, no matter how
many samples were collected; samples collected so far are written (as
their median) only by the timeout handler, when the timer is still
pending and at least one sample exists. -/
theorem close_error_write_nothing (s : SessionState) :
    (handleEvent s .closed).written = s.written ∧
    (handleEvent s .closed).settled = true ∧
    (handleEvent s .closed).timerActive = false ∧
    (handleEvent s .errored).written = s.written ∧
    (handleEvent s .errored).settled = true ∧
    (handleEvent s .errored).timerActive = false ∧
    (s.timerActive = true → s.samples ≠ [] →
      (handleEvent s .timeoutFire).written =
        s.written ++ [writeReading s.samples s.state]) := by
  refine ⟨rfl, rfl, rfl, rfl, rfl, rfl, ?_⟩
  intro ht hs
  simp [handleEvent, ht, List.length_pos.mpr hs]

/-- Witness for the amended C2: after one 97°F sample, the timeout path
(not the close path) writes the pending sample. -/
theorem close_error_write_nothing_witness :
    (handleEvent (runSession [.message (some ⟨0x71, 0x07, 0x6f, 0, 0, 0⟩)])
        .timeoutFire).written =
      (runSession [.message (some ⟨0x71, 0x07, 0x6f, 0, 0, 0⟩)]).written ++
        [writeReading (runSession [.message (some ⟨0x71, 0x07, 0x6f, 0, 0, 0⟩)]).samples
          (runSession [.message (some ⟨0x71, 0x07, 0x6f, 0, 0, 0⟩)]).state] :=
  (close_error_write_nothing
    (runSession [.message (some ⟨0x71, 0x07, 0x6f, 0, 0, 0⟩)])).2.2.2.2.2.2
    (by decide) (by decide)

/-- C3 counterexample: four 97°F Temperature frames in one session — the
fourth arriving after the third has already triggered finalization —
make the session write TWO readings: the message handler is not guarded
after finalization, so a late frame can cause a second Reading. -/
theorem second_reading_cex :
    (runSession [.message (some ⟨0x71, 0x07, 0x6f, 0, 0, 0⟩),
      .message (some ⟨0x71, 0x07, 0x6f, 0, 0, 0⟩),
      .message (some ⟨0x71, 0x07, 0x6f, 0, 0, 0⟩),
      .message (some ⟨0x71, 0x07, 0x6f, 0, 0, 0⟩)]).written.length = 2 := by
  decide

/-- C3 amended: transport close and error events never write a Reading,
and a timeout event whose timer has been canceled leaves the session
state entirely unchanged — so a late-arriving close, error, or losing
timer cannot cause a second Reading after finalization, and any message
event that writes also cancels the timer.  The message handler itself is
not guarded, however: a Temperature frame arriving after finalization
appends a further Reading, and sessions ended by close/error (or by
timeout with no samples) write none, so "exactly one Reading per
session" does not hold in general. -/
theorem late_transport_events_ignored (s : SessionState) (f : RawFrame) :
    (handleEvent s .closed).written = s.written ∧
    (handleEvent s .errored).written = s.written ∧
    (s.timerActive = false → handleEvent s .timeoutFire = s) ∧
    ((handleEvent s (.message (some f))).written ≠ s.written →
      (handleEvent s (.message (some f))).timerActive = false) := by
  refine ⟨rfl, rfl, ?_, ?_⟩
  · intro ht
    simp [handleEvent, ht]
  · intro hw
    rcases hty : (parseDisplayData f).type <;>
      rcases htmp : (parseDisplayData f).temp with - | t <;>
        simp [handleEvent, hty, htmp] at hw ⊢
    all_goals by_cases hlen : SAMPLE_COUNT ≤ s.samples.length + 1
    all_goals simp [hlen] at hw ⊢

/-- Witness for the amended C3: after three 97°F samples have finalized
the session, a late timeout event leaves the session unchanged. -/
theorem late_transport_events_ignored_witness :
    handleEvent (runSession [.message (some ⟨0x71, 0x07, 0x6f, 0, 0, 0⟩),
      .message (some ⟨0x71, 0x07, 0x6f, 0, 0, 0⟩),
      .message (some ⟨0x71, 0x07, 0x6f, 0, 0, 0⟩)]) .timeoutFire =
    runSession [.message (some ⟨0x71, 0x07, 0x6f, 0, 0, 0⟩),
      .message (some ⟨0x71, 0x07, 0x6f, 0, 0, 0⟩),
      .message (some ⟨0x71, 0x07, 0x6f, 0, 0, 0⟩)] :=
  (late_transport_events_ignored
    (runSession [.message (some ⟨0x71, 0x07, 0x6f, 0, 0, 0⟩),
      .message (some ⟨0x71, 0x07, 0x6f, 0, 0, 0⟩),
      .message (some ⟨0x71, 0x07, 0x6f, 0, 0, 0⟩)])
    ⟨0x71, 0x07, 0x6f, 0, 0, 0⟩).2.2.1 (by decide)

/-- C5: a session in which exactly three Temperature frames arrive
before the timeout fires writes exactly one Reading, whose temperature
is the median of the three sample values; the write clears the pending
timer (`clearTimeout`), so a timeout event arriving afterwards leaves
the session unchanged. -/
theorem session_three_samples (f1 f2 f3 : RawFrame) (v1 v2 v3 : Nat)
    (h1t : (parseDisplayData f1).type = DisplayType.temp)
    (h1v : (parseDisplayData f1).temp = some v1)
    (h2t : (parseDisplayData f2).type = DisplayType.temp)
    (h2v : (parseDisplayData f2).temp = some v2)
    (h3t : (parseDisplayData f3).type = DisplayType.temp)
    (h3v : (parseDisplayData f3).temp = some v3) :
    (runSession [.message (some f1), .message (some f2),
        .message (some f3)]).written.map (fun r => r.currentTemp) =
      [median [v1, v2, v3]] ∧
    (runSession [.message (some f1), .message (some f2),
        .message (some f3)]).timerActive = false ∧
    handleEvent (runSession [.message (some f1), .message (some f2),
        .message (some f3)]) .timeoutFire =
      runSession [.message (some f1), .message (some f2),
        .message (some f3)] := by
  simp [runSession, handleEvent, h1t, h1v, h2t, h2v, h3t, h3v,
    SAMPLE_COUNT, initialSession, writeReading]

/-- Witness for C5 with the three concrete frames 97°F, 99°F, 98°F. -/
theorem session_three_samples_witness :
    (runSession [.message (some ⟨0x71, 0x07, 0x6f, 0, 0, 0⟩),
        .message (some ⟨0x71, 0x6f, 0x6f, 0, 0, 0⟩),
        .message (some ⟨0x71, 0x7f, 0x6f, 0, 0, 0⟩)]).written.map
        (fun r => r.currentTemp) = [median [97, 99, 98]] ∧
    (runSession [.message (some ⟨0x71, 0x07, 0x6f, 0, 0, 0⟩),
        .message (some ⟨0x71, 0x6f, 0x6f, 0, 0, 0⟩),
        .message (some ⟨0x71, 0x7f, 0x6f, 0, 0, 0⟩)]).timerActive = false ∧
    handleEvent (runSession [.message (some ⟨0x71, 0x07, 0x6f, 0, 0, 0⟩),
        .message (some ⟨0x71, 0x6f, 0x6f, 0, 0, 0⟩),
        .message (some ⟨0x71, 0x7f, 0x6f, 0, 0, 0⟩)]) .timeoutFire =
      runSession [.message (some ⟨0x71, 0x07, 0x6f, 0, 0, 0⟩),
        .message (some ⟨0x71, 0x6f, 0x6f, 0, 0, 0⟩),
        .message (some ⟨0x71, 0x7f, 0x6f, 0, 0, 0⟩)] :=
  session_three_samples ⟨0x71, 0x07, 0x6f, 0, 0, 0⟩ ⟨0x71, 0x6f, 0x6f, 0, 0, 0⟩
    ⟨0x71, 0x7f, 0x6f, 0, 0, 0⟩ 97 99 98 (by decide) (by decide) (by decide)
    (by decide) (by decide) (by decide)
